import Mathlib

/-!
Verification of the VFF FAT12/16 container driver (`Wii/archive.py`, class `VFF`).

Bytes are modelled as `Nat` (with explicit `< 256` hypotheses where byte-width
matters), byte strings as `List Nat`, and the container file as a `List Nat`.
Fallible operations return `Except VffError`; loops that the source runs
without a bound are given explicit fuel, where a `none` result means the
source would still be iterating after that many steps.
-/

set_option maxRecDepth 20000

namespace Wii

/-- `fp.read(len)` after `fp.seek(pos)`: the bytes of `file` from `pos`,
at most `len` of them (short reads at EOF return what is left). -/
def fileRead (file : List Nat) (pos len : Nat) : List Nat :=
  (file.drop pos).take len

/-- Little-endian 16-bit field at `pos` (ctypes `LittleEndianStructure`). -/
def readU16LE (f : List Nat) (pos : Nat) : Nat :=
  f.getD pos 0 + f.getD (pos + 1) 0 * 0x100

/-- Little-endian 32-bit field at `pos`. -/
def readU32LE (f : List Nat) (pos : Nat) : Nat :=
  f.getD pos 0 + f.getD (pos + 1) 0 * 0x100 + f.getD (pos + 2) 0 * 0x10000 +
    f.getD (pos + 3) 0 * 0x1000000

/-- Big-endian 16-bit field at `pos` (ctypes `BigEndianStructure`, VFF header). -/
def readU16BE (f : List Nat) (pos : Nat) : Nat :=
  f.getD pos 0 * 0x100 + f.getD (pos + 1) 0

/-- Big-endian 32-bit field at `pos` (VFF header `fileSize`). -/
def readU32BE (f : List Nat) (pos : Nat) : Nat :=
  f.getD pos 0 * 0x1000000 + f.getD (pos + 1) 0 * 0x10000 +
    f.getD (pos + 2) 0 * 0x100 + f.getD (pos + 3) 0

/-- `array.array("H", data)`: successive byte pairs as 16-bit values in the
host's (little-endian) byte order. -/
def parseU16LE : List Nat → List Nat
  | b0 :: b1 :: rest => (b0 + b1 * 0x100) :: parseU16LE rest
  | _ => []

/-- The failure modes of the driver, one per `raise` site (or Python built-in
exception) reachable from the modelled code. -/
inductive VffError where
  /-- "This is not a valid VFF file"; `reason` 0 = magic, 1 = size, 2 = header size. -/
  | invalidContainer (reason : Nat)
  /-- "FAT type not supported" (cluster count ≥ 65525). -/
  | unsupportedFat
  /-- "Found 0x%04x in cluster chain" raised by `get_chain`. -/
  | chainCorruption (clus : Nat)
  /-- Python `IndexError` from indexing `self.array` out of range. -/
  | indexError
  /-- Python `OSError` from `fp.seek` to a negative offset. -/
  | seekError
  /-- Python `TypeError`/`AttributeError` from using a lookup result at the
  wrong type (e.g. `write`-ing a non-bytes value, or `.ls` on bytes). -/
  | typeError
  /-- Python `ValueError` from `from_buffer_copy` on a buffer shorter than
  the structure. -/
  | bufferError
  deriving DecidableEq

instance {ε α : Type} [DecidableEq ε] [DecidableEq α] : DecidableEq (Except ε α) := fun x y =>
  match x, y with
  | Except.ok a, Except.ok b =>
    if h : a = b then isTrue (by rw [h])
    else isFalse (fun hc => h (by injection hc))
  | Except.error a, Except.error b =>
    if h : a = b then isTrue (by rw [h])
    else isFalse (fun hc => h (by injection hc))
  | Except.ok _, Except.error _ => isFalse (fun hc => by injection hc)
  | Except.error _, Except.ok _ => isFalse (fun hc => by injection hc)

/-- Result of a possibly-diverging, possibly-failing operation: `none` means
the source is still looping after the given fuel. -/
abbrev M (α : Type) := Option (Except VffError α)

/-- Sequencing for `M`: propagate divergence and errors. -/
def mbind {α β : Type} (x : M α) (f : α → M β) : M β :=
  match x with
  | none => none
  | some (Except.error e) => some (Except.error e)
  | some (Except.ok a) => f a

/-- FAT type, selected from the cluster count in `FAT.__init__`. -/
inductive FatType where
  | fat12
  | fat16
  deriving DecidableEq

/-- `self.reserved` as set in `FAT.__init__` for each type. -/
def FatType.reservedVal : FatType → Nat
  | .fat12 => 0xFF0
  | .fat16 => 0xFFF0

/-- `VFF.FAT`: `self.type`/`self.reserved` collapse to `ftype`; `self.array`
holds raw bytes for FAT12 (`array.array("B", ...)`) and 16-bit values for
FAT16 (`array.array("H", ...)`). -/
structure FAT where
  ftype : FatType
  array : List Nat
  deriving DecidableEq

/-- `self.reserved`. -/
def FAT.reserved (t : FAT) : Nat := t.ftype.reservedVal

/-- `is_available(x)`: `x == 0x0000`. -/
def FAT.is_available (x : Nat) : Bool := x == 0x0000

/-- `is_used(x)`: `0x0001 <= x < self.reserved`. -/
def FAT.is_used (t : FAT) (x : Nat) : Bool := decide (0x0001 ≤ x ∧ x < t.reserved)

/-- `is_reserved(x)`: `self.reserved <= x <= self.reserved + 6`. -/
def FAT.is_reserved (t : FAT) (x : Nat) : Bool :=
  decide (t.reserved ≤ x ∧ x ≤ t.reserved + 6)

/-- `is_bad(x)`: `x == self.reserved + 7`. -/
def FAT.is_bad (t : FAT) (x : Nat) : Bool := x == t.reserved + 7

/-- `is_last(x)`: `(self.reserved + 8) <= x`. -/
def FAT.is_last (t : FAT) (x : Nat) : Bool := decide (t.reserved + 8 ≤ x)

/-- `FAT.__getitem__(item)`. For FAT16 a direct array lookup; for FAT12 the
packed three-bytes-per-two-entries decode. `none` models the `IndexError`
Python raises when an access falls outside `self.array`. -/
def FAT.getItem (t : FAT) (item : Nat) : Option Nat :=
  match t.ftype with
  | .fat16 => t.array.get? item
  | .fat12 =>
    let off := (item / 2) * 3
    if item &&& 1 = 1 then
      match t.array.get? (off + 1), t.array.get? (off + 2) with
      | some b1, some b2 => some (Nat.lor (b1 >>> 4) (b2 <<< 4))
      | _, _ => none
    else
      match t.array.get? off, t.array.get? (off + 1) with
      | some b0, some b1 => some (Nat.lor b0 ((Nat.land b1 0xF) <<< 8))
      | _, _ => none

/-- The loop of `get_chain`: `while is_used(clus): chain.append(clus);
clus = self[clus]`, then `if not is_last(clus): raise`. The source runs the
loop unbounded; `fuel` counts loop iterations and `none` means the loop is
still running after `fuel` of them. -/
def get_chain_go (t : FAT) : Nat → Nat → List Nat → M (List Nat)
  | 0, _, _ => none
  | fuel + 1, clus, chain =>
    if t.is_used clus then
      match t.getItem clus with
      | some nxt => get_chain_go t fuel nxt (chain ++ [clus])
      | none => some (Except.error VffError.indexError)
    else if t.is_last clus then some (Except.ok chain)
    else some (Except.error (VffError.chainCorruption clus))

/-- `FAT.get_chain(start)`. -/
def FAT.get_chain (t : FAT) (start fuel : Nat) : M (List Nat) :=
  get_chain_go t fuel start []

/-- `fatsize = (clustercount * self.type // 8 + self.CLUSTERSIZE - 1)
& ~(self.CLUSTERSIZE - 1)`: round the byte size of the table up to the next
512-byte boundary (the bitmask clears the low 9 bits). -/
def fatsize (clustercount bits : Nat) : Nat :=
  (clustercount * bits / 8 + 0x200 - 1) / 0x200 * 0x200

/-- Type-directed parse of the FAT backing bytes (`array.array(code, data)`). -/
def fatParse : FatType → List Nat → List Nat
  | .fat12, data => data
  | .fat16, data => parseU16LE data

/-- `FAT.__init__(fp, clustercount)`: select the type, read `fatsize` bytes
from position `pos` of `file`, and return the table together with the file
position after the read (`fp` advances by the bytes actually available). -/
def fat_init (file : List Nat) (pos clustercount : Nat) : Except VffError (FAT × Nat) :=
  if clustercount < 4085 then
    let fs := fatsize clustercount 12
    Except.ok (⟨.fat12, fatParse .fat12 (fileRead file pos fs)⟩, min (pos + fs) file.length)
  else if clustercount < 65525 then
    let fs := fatsize clustercount 16
    Except.ok (⟨.fat16, fatParse .fat16 (fileRead file pos fs)⟩, min (pos + fs) file.length)
  else Except.error VffError.unsupportedFat

/-- ctypes `ARRAY(c_char, n)` attribute access: the stored bytes up to (not
including) the first NUL. -/
def cstr (l : List Nat) : List Nat := l.takeWhile (fun b => b ≠ 0)

/-- The ASCII whitespace bytes stripped by Python `bytes.rstrip()`. -/
def isSpaceByte (b : Nat) : Bool :=
  b == 0x20 || b == 0x09 || b == 0x0A || b == 0x0D || b == 0x0B || b == 0x0C

/-- Python `bytes.rstrip()`: drop trailing whitespace bytes. -/
def rstripB (l : List Nat) : List Nat :=
  (l.reverse.dropWhile isSpaceByte).reverse

/-- Python `str.lower()` restricted to the ASCII bytes directory names use. -/
def lowerB (l : List Nat) : List Nat :=
  l.map (fun b => if 0x41 ≤ b ∧ b ≤ 0x5A then b + 0x20 else b)

/-- `VFF.Directory.FileEntry`: one 32-byte FAT directory record
(LittleEndianStructure). `name`/`fileExtension` hold the ctypes `c_char`
array values, i.e. the raw field bytes truncated at the first NUL. -/
structure FileEntry where
  name : List Nat
  fileExtension : List Nat
  attributes : Nat
  reserved : Nat
  creationTimeMilliseconds : Nat
  creationTime : Nat
  creationDate : Nat
  accessDate : Nat
  extendedAttributes : Nat
  lastModifiedTime : Nat
  lastModifiedDate : Nat
  offset : Nat
  size : Nat
  deriving DecidableEq

/-- `FileEntry.from_buffer_copy(entry)` on a full 32-byte record. -/
def parse_entry (rec : List Nat) : FileEntry where
  name := cstr (rec.take 8)
  fileExtension := cstr ((rec.drop 8).take 3)
  attributes := rec.getD 11 0
  reserved := rec.getD 12 0
  creationTimeMilliseconds := rec.getD 13 0
  creationTime := readU16LE rec 14
  creationDate := readU16LE rec 16
  accessDate := readU16LE rec 18
  extendedAttributes := readU16LE rec 20
  lastModifiedTime := readU16LE rec 22
  lastModifiedDate := readU16LE rec 24
  offset := readU16LE rec 26
  size := readU32LE rec 28

/-- `get_name()`: `self.name.rstrip()`. -/
def FileEntry.get_name (e : FileEntry) : List Nat := rstripB e.name

/-- `get_file_extension()`: `self.fileExtension.rstrip()`. -/
def FileEntry.get_file_extension (e : FileEntry) : List Nat := rstripB e.fileExtension

/-- `get_full_name()`: name, a dot, and the extension; the trailing dot is
dropped when the extension is empty (`fullname[-1] == "."`). -/
def FileEntry.get_full_name (e : FileEntry) : List Nat :=
  let fullname := e.get_name ++ [0x2E] ++ e.get_file_extension
  if fullname.getLast? == some 0x2E then fullname.dropLast else fullname

/-- `is_empty()`: name empty (first raw byte NUL) or first byte 0xE5 (deleted). -/
def FileEntry.is_empty (e : FileEntry) : Bool :=
  match e.name with
  | [] => true
  | b :: _ => b == 0xE5

/-- The entry loop of `Directory.__init__`: scan in 32-byte records
(`range(0, len(data), 32)`), skipping deleted/empty entries and VFAT
long-name entries (`attributes & 0xF == 0xF`). A trailing record shorter
than 32 bytes - which happens whenever `len(data)` is not a multiple of
32, e.g. for a truncated root-directory region - makes
`FileEntry.from_buffer_copy` raise `ValueError` (bufferError), discarding
the entries gathered so far. `fuel` makes the recursion structural; one
record consumes at least one fuel, so `data.length` fuel (supplied by
`parseDirectory`) always suffices, and the fuel-exhaustion branch can only
see empty or short data, which it answers like the main branch. -/
def parseDirectory_go : Nat → List Nat → Except VffError (List FileEntry)
  | 0, data => if data.length = 0 then Except.ok [] else Except.error VffError.bufferError
  | fuel + 1, data =>
    if 32 ≤ data.length then
      let e := parse_entry (data.take 32)
      match parseDirectory_go fuel (data.drop 32) with
      | Except.error err => Except.error err
      | Except.ok rest =>
        if e.is_empty then Except.ok rest
        else if e.attributes &&& 0xF == 0xF then Except.ok rest
        else Except.ok (e :: rest)
    else if data.length = 0 then Except.ok []
    else Except.error VffError.bufferError

/-- The full `Directory.__init__` entry loop over `data`. -/
def parseDirectory (data : List Nat) : Except VffError (List FileEntry) :=
  parseDirectory_go data.length data

/-- `VFF.__init__` state: the open file's bytes, the header fields the
constructor keeps, both FAT copies, the parsed root directory, and
`self.offset` (the stream position after the root region was read). -/
structure VFF where
  file : List Nat
  fileSize : Nat
  headerSize : Nat
  clustercount : Nat
  fat1 : FAT
  fat2 : FAT
  root : List FileEntry
  offset : Nat
  deriving DecidableEq

/-- The header magic `b"VFF "`. -/
def vffMagic : List Nat := [0x56, 0x46, 0x46, 0x20]

/-- `sizeof(VFF.Header)`: 4 + 2 + 2 + 4 + 2 + 18 packed bytes. -/
def sizeofHeader : Nat := 32

/-- `VFF.__init__(file)`: parse and validate the header (magic, declared
file size against the actual size, declared header size), derive the
cluster count, read both FAT copies and the fixed 0x1000-byte root region,
parse the root directory, and record the final stream position as
`self.offset`. A file shorter than the header makes `from_buffer_copy`
raise (bufferError), as does a truncated root region whose length is not
a multiple of 32 (via `Directory.__init__`). -/
def vff_init (file : List Nat) : Except VffError VFF :=
  if file.length < sizeofHeader then Except.error VffError.bufferError
  else if file.take 4 ≠ vffMagic then Except.error (VffError.invalidContainer 0)
  else if readU32BE file 8 ≠ file.length then Except.error (VffError.invalidContainer 1)
  else if readU16BE file 12 ≠ sizeofHeader then Except.error (VffError.invalidContainer 2)
  else
    let clustercount := file.length / 0x200
    match fat_init file sizeofHeader clustercount with
    | Except.error e => Except.error e
    | Except.ok (fat1, p1) =>
      match fat_init file p1 clustercount with
      | Except.error e => Except.error e
      | Except.ok (fat2, p2) =>
        let rootData := fileRead file p2 0x1000
        match parseDirectory rootData with
        | Except.error e => Except.error e
        | Except.ok root =>
          Except.ok
            { file := file
              fileSize := readU32BE file 8
              headerSize := readU16BE file 12
              clustercount := clustercount
              fat1 := fat1
              fat2 := fat2
              root := root
              offset := min (p2 + 0x1000) file.length }

/-- `VFF.read_cluster(num)`: `num -= 2; fp.seek(self.offset +
self.CLUSTERSIZE * num); fp.read(self.CLUSTERSIZE)`. In Python `num - 2`
can be negative; seeking to a negative absolute offset raises `OSError`
(seekError); any non-negative offset is accepted, with reads past EOF
returning short or empty data. -/
def VFF.read_cluster (v : VFF) (num : Nat) : Except VffError (List Nat) :=
  let pos : Int := (v.offset : Int) + 0x200 * ((num : Int) - 2)
  if pos < 0 then Except.error VffError.seekError
  else Except.ok (fileRead v.file pos.toNat 0x200)

/-- The concatenation loop of `read_chain`. -/
def readClusters (v : VFF) : List Nat → Except VffError (List Nat)
  | [] => Except.ok []
  | c :: cs => do
    let d ← v.read_cluster c
    let rest ← readClusters v cs
    Except.ok (d ++ rest)

/-- `VFF.read_chain(start)`: resolve the chain on `self.fat1`, then
concatenate the clusters' bytes. -/
def VFF.read_chain (v : VFF) (start fuel : Nat) : M (List Nat) :=
  mbind (v.fat1.get_chain start fuel) fun clusters =>
    some (readClusters v clusters)

/-- The `DIRECTORY` attribute bit. -/
def DIRECTORY : Nat := 16

/-- The three kinds of value `Directory.__getitem__` can produce for a
matched entry: a new `Directory` (kept as its parsed entry list), the empty
string `""` returned for zero-size entries, or the chain's bytes truncated
to the declared size. -/
inductive Resolved where
  /-- `VFF.Directory(self.vff, self.vff.read_chain(file.offset))`. -/
  | subdir (entries : List FileEntry)
  /-- The `return ""` branch (`elif not file.size`). -/
  | emptyStr
  /-- `self.vff.read_chain(file.offset)[:file.size]`. -/
  | content (bs : List Nat)
  deriving DecidableEq

/-- `Directory.__getitem__(d)`: scan `self.entries` in order for the first
entry whose lower-cased full name equals the lower-cased query, and resolve
it; with no match the loop falls through and Python returns `None`. For a
DIRECTORY entry the chain bytes are reparsed through `Directory.__init__`,
whose `ValueError` on a short trailing record propagates. -/
def dir_getitem (v : VFF) : List FileEntry → List Nat → Nat → M (Option Resolved)
  | [], _, _ => some (Except.ok none)
  | e :: es, d, fuel =>
    if lowerB e.get_full_name = lowerB d then
      if e.attributes &&& DIRECTORY ≠ 0 then
        mbind (v.read_chain e.offset fuel) fun bs =>
          match parseDirectory bs with
          | Except.error err => some (Except.error err)
          | Except.ok entries => some (Except.ok (some (Resolved.subdir entries)))
      else if e.size = 0 then some (Except.ok (some Resolved.emptyStr))
      else
        mbind (v.read_chain e.offset fuel) fun bs =>
          some (Except.ok (some (Resolved.content (bs.take e.size))))
    else dir_getitem v es d fuel

/-- Decimal digits of `n` as ASCII bytes, for the `[{size} bytes]` text
`ls` prints. -/
def natBytes (n : Nat) : List Nat := (Nat.repr n).toList.map Char.toNat

/-- `Directory.ls(pre)`, modelled as the list of printed lines (each a byte
string). `all` is `self.entries` (lookups search the whole directory),
`rem` the part of it the `for` loop has not consumed yet. Every recursive
call burns one fuel so that the recursion is structural; `none` means the
traversal did not complete within the fuel (the source recurses without any
cycle guard). A lookup result that is not a directory object makes the
`.ls` attribute access raise (typeError). -/
def ls_go (v : VFF) : Nat → List FileEntry → List FileEntry → List Nat → M (List (List Nat))
  | 0, _, _, _ => none
  | _ + 1, _, [], _ => some (Except.ok [])
  | fuel + 1, all, e :: es, pre =>
    let fullname := e.get_full_name
    if e.attributes &&& DIRECTORY ≠ 0 then
      if fullname = [0x2E] ∨ fullname = [0x2E, 0x2E] then ls_go v fuel all es pre
      else
        let line := pre ++ [0x2F] ++ fullname ++ [0x2F]
        mbind (dir_getitem v all fullname fuel) fun res =>
          match res with
          | some (Resolved.subdir sub) =>
            mbind (ls_go v fuel sub sub (pre ++ [0x2F] ++ fullname)) fun sublines =>
              mbind (ls_go v fuel all es pre) fun rest =>
                some (Except.ok (line :: (sublines ++ rest)))
          | _ => some (Except.error VffError.typeError)
    else
      let line := pre ++ [0x2F] ++ fullname ++ [0x20, 0x5B] ++ natBytes e.size ++
        [0x20, 0x62, 0x79, 0x74, 0x65, 0x73, 0x5D]
      mbind (ls_go v fuel all es pre) fun rest => some (Except.ok (line :: rest))

/-- One effect of `Directory.dump`: a created directory (`none`) or a file
written with the given bytes, at the given path. -/
abbrev DumpAction := List Nat × Option (List Nat)

/-- `Directory.dump(path)`, modelled as the list of filesystem effects in
order. Directory entries (other than `.`/`..`) record a created directory
and recurse; file entries look their own name up (as the source does) and
write the resolved bytes. A lookup that does not produce chain bytes makes
`dumpfile.write` raise (typeError) - this includes the `""` returned for
zero-size entries, a `str` that a binary-mode `write` rejects. -/
def dump_go (v : VFF) : Nat → List FileEntry → List FileEntry → List Nat → M (List DumpAction)
  | 0, _, _, _ => none
  | _ + 1, _, [], _ => some (Except.ok [])
  | fuel + 1, all, e :: es, path =>
    let fullname := e.get_full_name
    if e.attributes &&& DIRECTORY ≠ 0 then
      if fullname = [0x2E] ∨ fullname = [0x2E, 0x2E] then dump_go v fuel all es path
      else
        mbind (dir_getitem v all fullname fuel) fun res =>
          match res with
          | some (Resolved.subdir sub) =>
            mbind (dump_go v fuel sub sub (path ++ [0x2F] ++ fullname)) fun subacts =>
              mbind (dump_go v fuel all es path) fun rest =>
                some (Except.ok ((path ++ [0x2F] ++ fullname, none) :: (subacts ++ rest)))
          | _ => some (Except.error VffError.typeError)
    else
      mbind (dir_getitem v all fullname fuel) fun res =>
        match res with
        | some (Resolved.content bs) =>
          mbind (dump_go v fuel all es path) fun rest =>
            some (Except.ok ((path ++ [0x2F] ++ fullname, some bs) :: rest))
        | _ => some (Except.error VffError.typeError)

/-- The walk the `get_chain` loop performs, as a relation: from cluster `c`
the loop visits exactly the `Used`-classified clusters `chain` (in order,
each advancing via `FAT.__getitem__`) and then reaches the first
non-`Used` value `term`, on which the loop exits. -/
inductive ChainRel (t : FAT) : Nat → List Nat → Nat → Prop where
  | done (c : Nat) (h : t.is_used c = false) : ChainRel t c [] c
  | step (c nxt : Nat) (chain : List Nat) (term : Nat)
      (hu : t.is_used c = true) (hd : t.getItem c = some nxt)
      (hrest : ChainRel t nxt chain term) : ChainRel t c (c :: chain) term

lemma chainRel_all_used {t : FAT} {c : Nat} {chain : List Nat} {term : Nat}
    (h : ChainRel t c chain term) : ∀ x ∈ chain, t.is_used x = true := by
  induction h with
  | done c h => intro x hx; cases hx
  | step c nxt chain term hu hd hrest ih =>
    intro x hx
    rcases List.mem_cons.mp hx with hx | hx
    · exact hx ▸ hu
    · exact ih x hx

lemma chainRel_term_not_used {t : FAT} {c : Nat} {chain : List Nat} {term : Nat}
    (h : ChainRel t c chain term) : t.is_used term = false := by
  induction h with
  | done c h => exact h
  | step c nxt chain term hu hd hrest ih => exact ih

lemma get_chain_go_spec {t : FAT} {c : Nat} {chain : List Nat} {term : Nat}
    (hrel : ChainRel t c chain term) :
    ∀ fuel acc r, get_chain_go t fuel c acc = some r →
      (t.is_last term = true → r = Except.ok (acc ++ chain)) ∧
      (t.is_last term = false → r = Except.error (VffError.chainCorruption term)) := by
  induction hrel with
  | done c h =>
    intro fuel acc r hr
    cases fuel with
    | zero => exact absurd hr (by simp [get_chain_go])
    | succ n =>
      rw [get_chain_go, h] at hr
      simp only [Bool.false_eq_true, if_false] at hr
      constructor
      · intro hlast
        rw [hlast] at hr
        simp only [if_true] at hr
        simp only [List.append_nil]
        exact (Option.some.injEq .. ▸ hr).symm
      · intro hlast
        rw [hlast] at hr
        simp only [Bool.false_eq_true, if_false] at hr
        exact (Option.some.injEq .. ▸ hr).symm
  | step c nxt chain term hu hd hrest ih =>
    intro fuel acc r hr
    cases fuel with
    | zero => exact absurd hr (by simp [get_chain_go])
    | succ n =>
      rw [get_chain_go, hu] at hr
      simp only [if_true] at hr
      rw [hd] at hr
      have := ih n (acc ++ [c]) r hr
      constructor
      · intro hlast
        rw [this.1 hlast, List.append_assoc, List.singleton_append]
      · exact this.2

lemma get_chain_go_isSome {t : FAT} {c : Nat} {chain : List Nat} {term : Nat}
    (hrel : ChainRel t c chain term) :
    ∀ fuel acc, chain.length < fuel → (get_chain_go t fuel c acc).isSome = true := by
  induction hrel with
  | done c h =>
    intro fuel acc hfuel
    cases fuel with
    | zero => omega
    | succ n =>
      rw [get_chain_go, h]
      simp only [Bool.false_eq_true, if_false]
      by_cases hl : t.is_last c = true
      · rw [hl]; simp
      · rw [Bool.not_eq_true] at hl; rw [hl]; simp
  | step c nxt chain term hu hd hrest ih =>
    intro fuel acc hfuel
    cases fuel with
    | zero => omega
    | succ n =>
      rw [get_chain_go, hu]
      simp only [if_true]
      rw [hd]
      exact ih n (acc ++ [c]) (by simp at hfuel; omega)

/-- `t.reserved` is positive for both FAT types. -/
lemma reserved_pos (t : FAT) : 1 ≤ t.reserved := by
  rcases t with ⟨ft, arr⟩
  cases ft <;> norm_num [FAT.reserved, FatType.reservedVal]

/-- Exactly one of the five FAT entry classifications holds for any value. -/
lemma classify_cases (t : FAT) (x : Nat) :
    (FAT.is_available x = true ∧ t.is_used x = false ∧ t.is_reserved x = false ∧
      t.is_bad x = false ∧ t.is_last x = false) ∨
    (FAT.is_available x = false ∧ t.is_used x = true ∧ t.is_reserved x = false ∧
      t.is_bad x = false ∧ t.is_last x = false) ∨
    (FAT.is_available x = false ∧ t.is_used x = false ∧ t.is_reserved x = true ∧
      t.is_bad x = false ∧ t.is_last x = false) ∨
    (FAT.is_available x = false ∧ t.is_used x = false ∧ t.is_reserved x = false ∧
      t.is_bad x = true ∧ t.is_last x = false) ∨
    (FAT.is_available x = false ∧ t.is_used x = false ∧ t.is_reserved x = false ∧
      t.is_bad x = false ∧ t.is_last x = true) := by
  have hr := reserved_pos t
  simp only [FAT.is_available, FAT.is_used, FAT.is_reserved, FAT.is_bad, FAT.is_last,
    beq_iff_eq, beq_eq_false_iff_ne, ne_eq, decide_eq_true_eq, decide_eq_false_iff_not,
    not_and, not_le, not_lt]
  omega

/-- A FAT12 table whose chain from cluster 2 is 2 → 3 → 0xFF8 (End):
packed bytes 3, 0x80, 0xFF at offset 3 decode to entry 2 = 3 and
entry 3 = 0xFF8. -/
def goodFat : FAT := ⟨.fat12, [0, 0, 0, 3, 0x80, 0xFF]⟩

/-- A FAT12 table whose chain from cluster 2 cycles: entry 2 = 3 and
entry 3 = 2, both `Used`-classified. -/
def cyclicFat : FAT := ⟨.fat12, [0, 0, 0, 3, 0x20, 0]⟩

lemma cyclicFat_go_none : ∀ fuel acc,
    get_chain_go cyclicFat fuel 2 acc = none ∧
    get_chain_go cyclicFat fuel 3 acc = none := by
  intro fuel
  induction fuel with
  | zero => exact fun acc => ⟨rfl, rfl⟩
  | succ n ih =>
    intro acc
    have h2u : cyclicFat.is_used 2 = true := by decide
    have h3u : cyclicFat.is_used 3 = true := by decide
    have h2d : cyclicFat.getItem 2 = some 3 := by decide
    have h3d : cyclicFat.getItem 3 = some 2 := by decide
    constructor
    · rw [get_chain_go, h2u]
      simp only [if_true]
      rw [h2d]
      exact (ih (acc ++ [2])).2
    · rw [get_chain_go, h3u]
      simp only [if_true]
      rw [h3d]
      exact (ih (acc ++ [3])).1

/-- C1: for any FAT table and start cluster whose walk visits the
`Used`-classified clusters `chain` and exits the loop on the first
non-`Used` value `term`, whenever `get_chain` finishes (result `some r`)
it returns exactly the accumulated chain when `term` classifies as `End`
(`is_last`), and raises the chain-corruption exception - never a
truncated chain - when `term` classifies as `Free`, `Reserved` or `Bad`. -/
theorem get_chain_spec (t : FAT) (start : Nat) (chain : List Nat) (term : Nat)
    (fuel : Nat) (r : Except VffError (List Nat))
    (hrel : ChainRel t start chain term)
    (hr : t.get_chain start fuel = some r) :
    (∀ c ∈ chain, t.is_used c = true) ∧
    (t.is_last term = true ↔ r = Except.ok chain) ∧
    ((FAT.is_available term = true ∨ t.is_reserved term = true ∨ t.is_bad term = true) ↔
      r = Except.error (VffError.chainCorruption term)) := by
  have hspec := get_chain_go_spec hrel fuel [] r hr
  simp only [List.nil_append] at hspec
  have hterm := chainRel_term_not_used hrel
  have hclass := classify_cases t term
  refine ⟨chainRel_all_used hrel, ?_, ?_⟩
  · constructor
    · exact hspec.1
    · intro hok
      by_contra hne
      rw [Bool.not_eq_true] at hne
      rw [hspec.2 hne] at hok
      exact absurd hok (by simp)
  · constructor
    · intro hcase
      have hlast : t.is_last term = false := by
        rcases hclass with h | h | h | h | h
        · exact h.2.2.2.2
        · rw [hterm] at h; exact absurd h.2.1 (by simp)
        · exact h.2.2.2.2
        · exact h.2.2.2.2
        · rcases hcase with hc | hc | hc
          · rw [h.1] at hc; exact absurd hc (by simp)
          · rw [h.2.2.1] at hc; exact absurd hc (by simp)
          · rw [h.2.2.2.1] at hc; exact absurd hc (by simp)
      exact hspec.2 hlast
    · intro herr
      have hlast : t.is_last term = false := by
        by_contra hne
        rw [Bool.not_eq_false] at hne
        rw [hspec.1 hne] at herr
        exact absurd herr (by simp)
      rcases hclass with h | h | h | h | h
      · exact Or.inl h.1
      · rw [hterm] at h; exact absurd h.2.1 (by simp)
      · exact Or.inr (Or.inl h.2.2.1)
      · exact Or.inr (Or.inr h.2.2.2.1)
      · rw [hlast] at h; exact absurd h.2.2.2.2 (by simp)

/-- Witness for C1 at `goodFat`: the walk 2 → 3 ends on 0xFF8 (`End`) and
`get_chain` returns `[2, 3]`. -/
theorem get_chain_spec_witness :
    (∀ c ∈ [2, 3], goodFat.is_used c = true) ∧
    (goodFat.is_last 0xFF8 = true ↔
      (Except.ok [2, 3] : Except VffError (List Nat)) = Except.ok [2, 3]) ∧
    ((FAT.is_available 0xFF8 = true ∨ goodFat.is_reserved 0xFF8 = true ∨
        goodFat.is_bad 0xFF8 = true) ↔
      (Except.ok [2, 3] : Except VffError (List Nat)) =
        Except.error (VffError.chainCorruption 0xFF8)) :=
  get_chain_spec goodFat 2 [2, 3] 0xFF8 10 (Except.ok [2, 3])
    (ChainRel.step 2 3 [3] 0xFF8 (by decide) (by decide)
      (ChainRel.step 3 0xFF8 [] 0xFF8 (by decide) (by decide)
        (ChainRel.done 0xFF8 (by decide))))
    (by decide)

/-- C2 counterexample: in `cyclicFat` the chain from 2 revisits the
`Used`-classified clusters 2 and 3 forever; after 1000 loop iterations
(far beyond any cluster count a 6-entry table can have) `get_chain` has
neither returned nor raised `ChainCorruption` - the source loops without
any bound, so the claimed at-most-`clusterCount`-steps termination fails. -/
theorem get_chain_cycle_cex :
    cyclicFat.is_used 2 = true ∧ cyclicFat.is_used 3 = true ∧
    cyclicFat.getItem 2 = some 3 ∧ cyclicFat.getItem 3 = some 2 ∧
    cyclicFat.get_chain 2 1000 = none :=
  ⟨by decide, by decide, by decide, by decide, (cyclicFat_go_none 1000 []).1⟩

/-- C2 (amended): `get_chain` terminates - in one loop step per chain
cluster - whenever the walk from `start` reaches a non-`Used` value; the
source imposes no `clusterCount` bound, and on a chain that cycles among
`Used` values it never terminates (see the counterexample). -/
theorem get_chain_terminates (t : FAT) (start : Nat) (chain : List Nat) (term : Nat)
    (fuel : Nat) (hrel : ChainRel t start chain term) (hfuel : chain.length < fuel) :
    (t.get_chain start fuel).isSome = true :=
  get_chain_go_isSome hrel fuel [] hfuel

/-- Witness for the amended C2 at `goodFat`. -/
theorem get_chain_terminates_witness : (goodFat.get_chain 2 3).isSome = true :=
  get_chain_terminates goodFat 2 [2, 3] 0xFF8 3
    (ChainRel.step 2 3 [3] 0xFF8 (by decide) (by decide)
      (ChainRel.step 3 0xFF8 [] 0xFF8 (by decide) (by decide)
        (ChainRel.done 0xFF8 (by decide))))
    (by decide)

/-- C3: for every FAT table and every value in the 16-bit range, the five
classification predicates are characterised exactly as the spec states
(with `reserved` 0xFF0 for FAT12 and 0xFFF0 for FAT16), and exactly one
of the five holds. -/
theorem classify_partition (t : FAT) (x : Nat) (hx : x ≤ 0xFFFF) :
    (FAT.is_available x = true ↔ x = 0) ∧
    (t.is_used x = true ↔ 1 ≤ x ∧ x < t.reserved) ∧
    (t.is_reserved x = true ↔ t.reserved ≤ x ∧ x ≤ t.reserved + 6) ∧
    (t.is_bad x = true ↔ x = t.reserved + 7) ∧
    (t.is_last x = true ↔ t.reserved + 8 ≤ x) ∧
    (t.reserved = if t.ftype = FatType.fat12 then 0xFF0 else 0xFFF0) ∧
    ((FAT.is_available x = true ∧ t.is_used x = false ∧ t.is_reserved x = false ∧
        t.is_bad x = false ∧ t.is_last x = false) ∨
      (FAT.is_available x = false ∧ t.is_used x = true ∧ t.is_reserved x = false ∧
        t.is_bad x = false ∧ t.is_last x = false) ∨
      (FAT.is_available x = false ∧ t.is_used x = false ∧ t.is_reserved x = true ∧
        t.is_bad x = false ∧ t.is_last x = false) ∨
      (FAT.is_available x = false ∧ t.is_used x = false ∧ t.is_reserved x = false ∧
        t.is_bad x = true ∧ t.is_last x = false) ∨
      (FAT.is_available x = false ∧ t.is_used x = false ∧ t.is_reserved x = false ∧
        t.is_bad x = false ∧ t.is_last x = true)) := by
  refine ⟨?_, ?_, ?_, ?_, ?_, ?_, classify_cases t x⟩
  · simp [FAT.is_available]
  · simp [FAT.is_used]
  · simp [FAT.is_reserved]
  · simp [FAT.is_bad]
  · simp [FAT.is_last]
  · rcases t with ⟨ft, arr⟩
    cases ft <;> simp [FAT.reserved, FatType.reservedVal]

/-- Witness for C3 at `goodFat` and the value 0xFF3 (a `Reserved` value). -/
theorem classify_partition_witness :
    (FAT.is_available 0xFF3 = true ↔ (0xFF3 : Nat) = 0) ∧
    (goodFat.is_used 0xFF3 = true ↔ 1 ≤ (0xFF3 : Nat) ∧ 0xFF3 < goodFat.reserved) ∧
    (goodFat.is_reserved 0xFF3 = true ↔
      goodFat.reserved ≤ 0xFF3 ∧ (0xFF3 : Nat) ≤ goodFat.reserved + 6) ∧
    (goodFat.is_bad 0xFF3 = true ↔ (0xFF3 : Nat) = goodFat.reserved + 7) ∧
    (goodFat.is_last 0xFF3 = true ↔ goodFat.reserved + 8 ≤ 0xFF3) ∧
    (goodFat.reserved = if goodFat.ftype = FatType.fat12 then 0xFF0 else 0xFFF0) ∧
    ((FAT.is_available 0xFF3 = true ∧ goodFat.is_used 0xFF3 = false ∧
        goodFat.is_reserved 0xFF3 = false ∧ goodFat.is_bad 0xFF3 = false ∧
        goodFat.is_last 0xFF3 = false) ∨
      (FAT.is_available 0xFF3 = false ∧ goodFat.is_used 0xFF3 = true ∧
        goodFat.is_reserved 0xFF3 = false ∧ goodFat.is_bad 0xFF3 = false ∧
        goodFat.is_last 0xFF3 = false) ∨
      (FAT.is_available 0xFF3 = false ∧ goodFat.is_used 0xFF3 = false ∧
        goodFat.is_reserved 0xFF3 = true ∧ goodFat.is_bad 0xFF3 = false ∧
        goodFat.is_last 0xFF3 = false) ∨
      (FAT.is_available 0xFF3 = false ∧ goodFat.is_used 0xFF3 = false ∧
        goodFat.is_reserved 0xFF3 = false ∧ goodFat.is_bad 0xFF3 = true ∧
        goodFat.is_last 0xFF3 = false) ∨
      (FAT.is_available 0xFF3 = false ∧ goodFat.is_used 0xFF3 = false ∧
        goodFat.is_reserved 0xFF3 = false ∧ goodFat.is_bad 0xFF3 = false ∧
        goodFat.is_last 0xFF3 = true)) :=
  classify_partition goodFat 0xFF3 (by decide)

lemma get?_eq_some_getD (l : List Nat) (i : Nat) (h : i < l.length) :
    l.get? i = some (l.getD i 0) := by
  simp [List.get?_eq_getElem?, List.getD_eq_getElem?_getD, List.getElem?_eq_getElem, h]

/-- A FAT16 table with two entries, for witnesses. -/
def fat16Sample : FAT := ⟨.fat16, [5, 7]⟩

/-- C4: indexing a 12-bit table at an in-range even index `i` yields
`byte[off] | ((byte[off+1] & 0xF) << 8)` with `off = (i/2)*3`, at an odd
index `(byte[off+1] >> 4) | (byte[off+2] << 4)`; indexing a 16-bit table
is a direct lookup of the `i`-th 16-bit entry. -/
theorem getItem_decode (t : FAT) (i : Nat) :
    (t.ftype = FatType.fat12 →
      (i % 2 = 0 → (i / 2) * 3 + 1 < t.array.length →
        t.getItem i = some (Nat.lor (t.array.getD ((i / 2) * 3) 0)
          ((Nat.land (t.array.getD ((i / 2) * 3 + 1) 0) 0xF) <<< 8))) ∧
      (i % 2 = 1 → (i / 2) * 3 + 2 < t.array.length →
        t.getItem i = some (Nat.lor ((t.array.getD ((i / 2) * 3 + 1) 0) >>> 4)
          ((t.array.getD ((i / 2) * 3 + 2) 0) <<< 4)))) ∧
    (t.ftype = FatType.fat16 → i < t.array.length →
      t.getItem i = some (t.array.getD i 0)) := by
  rcases t with ⟨ft, arr⟩
  constructor
  · intro h12
    simp only at h12
    subst h12
    constructor
    · intro hpar hlen
      replace hlen : (i / 2) * 3 + 1 < arr.length := hlen
      rw [FAT.getItem]
      simp only
      rw [if_neg (by rw [Nat.and_one_is_mod, hpar]; omega)]
      rw [get?_eq_some_getD arr _ (by omega), get?_eq_some_getD arr _ hlen]
    · intro hpar hlen
      replace hlen : (i / 2) * 3 + 2 < arr.length := hlen
      rw [FAT.getItem]
      simp only
      rw [if_pos (by rw [Nat.and_one_is_mod, hpar])]
      rw [get?_eq_some_getD arr _ (by omega), get?_eq_some_getD arr _ hlen]
  · intro h16
    simp only at h16
    subst h16
    intro hlen
    rw [FAT.getItem]
    simp only
    exact get?_eq_some_getD arr i hlen

/-- Witness for C4: both 12-bit parities on `goodFat` and a 16-bit lookup
on `fat16Sample`. -/
theorem getItem_decode_witness :
    goodFat.getItem 2 = some (Nat.lor (goodFat.array.getD 3 0)
      ((Nat.land (goodFat.array.getD 4 0) 0xF) <<< 8)) ∧
    goodFat.getItem 3 = some (Nat.lor ((goodFat.array.getD 4 0) >>> 4)
      ((goodFat.array.getD 5 0) <<< 4)) ∧
    fat16Sample.getItem 1 = some (fat16Sample.array.getD 1 0) :=
  ⟨((getItem_decode goodFat 2).1 rfl).1 (by decide) (by decide),
    ((getItem_decode goodFat 3).1 rfl).2 (by decide) (by decide),
    (getItem_decode fat16Sample 1).2 rfl (by decide)⟩

/-- A hand-built container over 2048 bytes of zeros (4 clusters, FAT12,
data offset 1056), for witnesses. -/
def sampleVff : VFF where
  file := List.replicate 2048 0
  fileSize := 2048
  headerSize := 32
  clustercount := 4
  fat1 := goodFat
  fat2 := goodFat
  root := []
  offset := 1056

/-- A valid 600-byte container image: magic `VFF `, declared size
0x258 = 600 (cluster count 1, FAT12, stream position 600 after the
truncated reads), all data zero. -/
def file600 : List Nat :=
  [0x56, 0x46, 0x46, 0x20, 0, 0, 0, 0, 0x00, 0x00, 0x02, 0x58, 0x00, 0x20] ++
    List.replicate 18 0 ++ List.replicate 568 0

/-- C5 counterexample: in the container built from `file600` (cluster
count 1), neither the below-range cluster number 1 nor the far
above-range cluster number 40 is rejected - `read_cluster 1` happily
returns 512 bytes read from the metadata region at byte offset 88, and
`read_cluster 40` returns (empty) data from past EOF; no
`OutOfRange`-style failure exists in the code. -/
theorem read_cluster_cex :
    (vff_init file600).toOption.map
        (fun v => (v.clustercount, v.offset, v.read_cluster 1, v.read_cluster 40)) =
      some (1, 600, Except.ok (List.replicate 0x200 0), Except.ok []) := by decide

/-- C5 (amended): `read_cluster num` reads the 512-byte block at byte
offset `dataOffset + 512 * (num - 2)` whenever that offset is
non-negative, for every `num` - in range or not; the code performs no
cluster-range validation (a negative offset merely makes the underlying
`seek` raise, and offsets past EOF read short or empty data). -/
theorem read_cluster_no_range_check (v : VFF) (num : Nat)
    (h : 0x400 ≤ v.offset + 0x200 * num) :
    v.read_cluster num =
      Except.ok (fileRead v.file (v.offset + 0x200 * num - 0x400) 0x200) := by
  simp only [VFF.read_cluster]
  rw [if_neg (by omega)]
  have ht : ((v.offset : Int) + 0x200 * ((num : Int) - 2)).toNat =
      v.offset + 0x200 * num - 0x400 := by omega
  rw [ht]

/-- Witness for the amended C5: cluster number 0 (outside the valid range)
on `sampleVff` resolves 512 bytes below the data offset. -/
theorem read_cluster_no_range_check_witness :
    0x400 ≤ sampleVff.offset + 0x200 * 0 ∧
    sampleVff.read_cluster 0 =
      Except.ok (fileRead sampleVff.file (sampleVff.offset + 0x200 * 0 - 0x400) 0x200) :=
  ⟨by decide, read_cluster_no_range_check sampleVff 0 (by decide)⟩

/-- Any error `parseDirectory_go` produces is the buffer-size error. -/
lemma parseDirectory_go_error : ∀ fuel (data : List Nat) e,
    parseDirectory_go fuel data = Except.error e → e = VffError.bufferError := by
  intro fuel
  induction fuel with
  | zero =>
    intro data e h
    rw [parseDirectory_go] at h
    by_cases h0 : data.length = 0
    · rw [if_pos h0] at h
      exact absurd h (by simp)
    · rw [if_neg h0] at h
      injection h with he
      exact he.symm
  | succ n ih =>
    intro data e h
    rw [parseDirectory_go] at h
    by_cases h32 : 32 ≤ data.length
    · rw [if_pos h32] at h
      simp only at h
      rcases hr : parseDirectory_go n (data.drop 32) with err | rest
      · rw [hr] at h
        simp only at h
        injection h with he
        exact he ▸ ih (data.drop 32) err hr
      · rw [hr] at h
        simp only at h
        split at h
        · exact absurd h (by simp)
        · split at h
          · exact absurd h (by simp)
          · exact absurd h (by simp)
    · rw [if_neg h32] at h
      by_cases h0 : data.length = 0
      · rw [if_pos h0] at h
        exact absurd h (by simp)
      · rw [if_neg h0] at h
        injection h with he
        exact he.symm

/-- Any error `parseDirectory` produces is the buffer-size error. -/
lemma parseDirectory_error {data : List Nat} {e : VffError}
    (h : parseDirectory data = Except.error e) : e = VffError.bufferError :=
  parseDirectory_go_error data.length data e h

lemma parseDirectory_go_zeros : ∀ fuel k, k ≤ fuel →
    parseDirectory_go fuel (List.replicate (32 * k) 0) = Except.ok [] := by
  intro fuel
  induction fuel with
  | zero =>
    intro k hk
    have hk0 : k = 0 := by omega
    subst hk0
    rw [parseDirectory_go]
    rw [if_pos (by rw [List.length_replicate])]
  | succ n ih =>
    intro k hk
    cases k with
    | zero =>
      rw [parseDirectory_go]
      rw [if_neg (by rw [List.length_replicate]; omega)]
      rw [if_pos (by rw [List.length_replicate])]
    | succ m =>
      rw [parseDirectory_go]
      rw [if_pos (by rw [List.length_replicate]; omega)]
      have htake : (List.replicate (32 * (m + 1)) (0 : Nat)).take 32 =
          List.replicate 32 0 := by
        rw [List.take_replicate, show min 32 (32 * (m + 1)) = 32 from by omega]
      have hdrop : (List.replicate (32 * (m + 1)) (0 : Nat)).drop 32 =
          List.replicate (32 * m) 0 := by
        rw [List.drop_replicate, show 32 * (m + 1) - 32 = 32 * m from by omega]
      rw [htake, hdrop, ih m (by omega)]
      simp only
      rw [if_pos (by decide : (parse_entry (List.replicate 32 0)).is_empty = true)]

/-- A region of all-zero bytes whose length is a multiple of 32 parses as
an empty directory (every record is an empty entry, skipped). -/
lemma parseDirectory_zeros (k : Nat) :
    parseDirectory (List.replicate (32 * k) 0) = Except.ok [] := by
  rw [parseDirectory, List.length_replicate]
  exact parseDirectory_go_zeros (32 * k) k (by omega)

/-- Forward characterisation of a successful `vff_init` run from the
results of its individual reads and checks. -/
lemma vff_init_ok_intro (file : List Nat) (cc : Nat) (root : List FileEntry)
    (fat1 fat2 : FAT) (p1 p2 : Nat)
    (hcc : file.length / 0x200 = cc)
    (hlen32 : ¬file.length < sizeofHeader)
    (hmagic : ¬file.take 4 ≠ vffMagic)
    (hsize : ¬readU32BE file 8 ≠ file.length)
    (hhdr : ¬readU16BE file 12 ≠ sizeofHeader)
    (hfat1 : fat_init file sizeofHeader cc = Except.ok (fat1, p1))
    (hfat2 : fat_init file p1 cc = Except.ok (fat2, p2))
    (hroot : parseDirectory (fileRead file p2 0x1000) = Except.ok root) :
    vff_init file = Except.ok
      { file := file
        fileSize := readU32BE file 8
        headerSize := readU16BE file 12
        clustercount := cc
        fat1 := fat1
        fat2 := fat2
        root := root
        offset := min (p2 + 0x1000) file.length } := by
  simp only [vff_init, hcc]
  rw [if_neg hlen32, if_neg hmagic, if_neg hsize, if_neg hhdr, hfat1]
  simp only
  rw [hfat2]
  simp only
  rw [hroot]

/-- A valid 90112-byte container image: magic `VFF `, declared size
0x16000 = 90112, header size 32, all data zero. -/
def file90112 : List Nat :=
  [0x56, 0x46, 0x46, 0x20, 0, 0, 0, 0, 0x00, 0x01, 0x60, 0x00, 0x00, 0x20] ++
    List.replicate 90098 0

/-- C7: a container whose header declares fileSize 90112 and headerSize 32
gets 176 clusters, a 12-bit FAT (176 < 4085), and data-region offset
5152 = 32 + 512 + 512 + 0x1000. -/
theorem vff_geometry_90112 :
    (vff_init file90112).toOption.map
        (fun v => (v.fat1.ftype, v.clustercount, v.offset)) =
      some (FatType.fat12, 176, 5152) := by
  have hlen : file90112.length = 90112 := by
    rw [file90112, List.length_append, List.length_replicate]
    rfl
  have hmagic : file90112.take 4 = vffMagic := by decide
  have hsize : readU32BE file90112 8 = 90112 := by decide
  have hhdr : readU16BE file90112 12 = 32 := by decide
  have hfs : fatsize 176 12 = 512 := by norm_num [fatsize]
  have hfat1 : fat_init file90112 sizeofHeader 176 =
      Except.ok (⟨FatType.fat12, fatParse FatType.fat12 (fileRead file90112 32 512)⟩, 544) := by
    simp only [fat_init, sizeofHeader]
    rw [if_pos (by norm_num : (176 : Nat) < 4085), hfs, hlen]
    norm_num
  have hfat2 : fat_init file90112 544 176 =
      Except.ok (⟨FatType.fat12, fatParse FatType.fat12 (fileRead file90112 544 512)⟩, 1056) := by
    simp only [fat_init]
    rw [if_pos (by norm_num : (176 : Nat) < 4085), hfs, hlen]
    norm_num
  have h14 : (1056 : Nat) =
      ([0x56, 0x46, 0x46, 0x20, 0, 0, 0, 0, 0x00, 0x01, 0x60, 0x00, 0x00, 0x20] :
        List Nat).length + 1042 := by decide
  have hrootdata : fileRead file90112 1056 0x1000 = List.replicate 4096 0 := by
    rw [fileRead, file90112, h14, List.drop_append, List.drop_replicate, List.take_replicate]
    congr 1
  have hroot : parseDirectory (fileRead file90112 1056 0x1000) = Except.ok [] := by
    rw [hrootdata, (by norm_num : (4096 : Nat) = 32 * 128)]
    exact parseDirectory_zeros 128
  rw [vff_init_ok_intro file90112 176 []
    ⟨FatType.fat12, fatParse FatType.fat12 (fileRead file90112 32 512)⟩
    ⟨FatType.fat12, fatParse FatType.fat12 (fileRead file90112 544 512)⟩
    544 1056 (by rw [hlen]) (by rw [hlen]; decide) (by rw [hmagic]; simp)
    (by rw [hsize, hlen]; simp) (by rw [hhdr]; simp [sizeofHeader]) hfat1 hfat2 hroot]
  rw [hlen]
  simp only [Except.toOption, Option.map]
  norm_num

/-- An 8-byte file: too short for the header, and its first four bytes are
not the magic. -/
def shortFile : List Nat := List.replicate 8 0

/-- C8 counterexample: on a file shorter than the 32-byte header, ctypes
`from_buffer_copy` raises `ValueError` before any of the three checks
runs, so a wrong magic does not produce the InvalidContainer failure the
claim promises for every input file. -/
theorem vff_open_short_cex :
    vff_init shortFile = Except.error VffError.bufferError ∧
    shortFile.take 4 ≠ vffMagic := by decide

/-- C8 (amended): for every input file long enough to fill the 32-byte
header, opening fails with InvalidContainer exactly when the magic is not
`VFF `, or the declared file size differs from the actual size, or the
declared header size differs from the fixed layout size; when all three
checks pass, construction proceeds past validation but can still end
three ways: a container, the unsupported-FAT-type failure for huge
cluster counts, or ctypes' buffer-size ValueError when the (possibly
truncated) root-directory region leaves a trailing partial 32-byte
record. Files shorter than the header fail with that same buffer-size
error from header parsing - in every case no partial container is
returned. -/
lemma fat_init_cases (file : List Nat) (pos cc : Nat) :
    (cc < 65525 ∧ ∃ t p, fat_init file pos cc = Except.ok (t, p)) ∨
    (65525 ≤ cc ∧ fat_init file pos cc = Except.error VffError.unsupportedFat) := by
  rw [fat_init]
  by_cases h1 : cc < 4085
  · rw [if_pos h1]
    exact Or.inl ⟨by omega, _, _, rfl⟩
  · rw [if_neg h1]
    by_cases h2 : cc < 65525
    · rw [if_pos h2]
      exact Or.inl ⟨h2, _, _, rfl⟩
    · rw [if_neg h2]
      exact Or.inr ⟨by omega, rfl⟩

theorem vff_open_validation (file : List Nat) (h : 32 ≤ file.length) :
    ((file.take 4 ≠ vffMagic ∨ readU32BE file 8 ≠ file.length ∨
        readU16BE file 12 ≠ sizeofHeader) ↔
      ∃ r, vff_init file = Except.error (VffError.invalidContainer r)) ∧
    ((file.take 4 = vffMagic ∧ readU32BE file 8 = file.length ∧
        readU16BE file 12 = sizeofHeader) →
      (∃ v, vff_init file = Except.ok v) ∨
        vff_init file = Except.error VffError.unsupportedFat ∨
        vff_init file = Except.error VffError.bufferError) := by
  rw [vff_init]
  rw [if_neg (by simp only [sizeofHeader]; omega)]
  by_cases hm : file.take 4 ≠ vffMagic
  · rw [if_pos hm]
    exact ⟨⟨fun _ => ⟨0, rfl⟩, fun _ => Or.inl hm⟩, fun hall => absurd hall.1 hm⟩
  · rw [if_neg hm]
    rw [not_not] at hm
    by_cases hs : readU32BE file 8 ≠ file.length
    · rw [if_pos hs]
      exact ⟨⟨fun _ => ⟨1, rfl⟩, fun _ => Or.inr (Or.inl hs)⟩,
        fun hall => absurd hall.2.1 hs⟩
    · rw [if_neg hs]
      rw [not_not] at hs
      by_cases hh : readU16BE file 12 ≠ sizeofHeader
      · rw [if_pos hh]
        exact ⟨⟨fun _ => ⟨2, rfl⟩, fun _ => Or.inr (Or.inr hh)⟩,
          fun hall => absurd hall.2.2 hh⟩
      · rw [if_neg hh]
        rw [not_not] at hh
        simp only
        rcases fat_init_cases file sizeofHeader (file.length / 0x200) with
          ⟨hlt, t1, p1, hcc⟩ | ⟨hge, hcc⟩
        · rw [hcc]
          simp only
          rcases fat_init_cases file p1 (file.length / 0x200) with
            ⟨_, t2, p2, hcc2⟩ | ⟨hge2, _⟩
          · rw [hcc2]
            simp only
            rcases hpd : parseDirectory (fileRead file p2 0x1000) with err | root
            · simp only
              have herr := parseDirectory_error hpd
              subst herr
              constructor
              · constructor
                · intro hbad
                  rcases hbad with hbad | hbad | hbad
                  · exact absurd hm hbad
                  · exact absurd hs hbad
                  · exact absurd hh hbad
                · rintro ⟨r, hr⟩
                  exact absurd hr (by simp)
              · exact fun _ => Or.inr (Or.inr rfl)
            · simp only
              constructor
              · constructor
                · intro hbad
                  rcases hbad with hbad | hbad | hbad
                  · exact absurd hm hbad
                  · exact absurd hs hbad
                  · exact absurd hh hbad
                · rintro ⟨r, hr⟩
                  exact absurd hr (by simp)
              · exact fun _ => Or.inl ⟨_, rfl⟩
          · omega
        · rw [hcc]
          constructor
          · constructor
            · intro hbad
              rcases hbad with hbad | hbad | hbad
              · exact absurd hm hbad
              · exact absurd hs hbad
              · exact absurd hh hbad
            · rintro ⟨r, hr⟩
              exact absurd hr (by simp)
          · exact fun _ => Or.inr (Or.inl rfl)

/-- A 40-byte file of 7s: long enough for the header, wrong magic. -/
def badMagicFile : List Nat := List.replicate 40 7

/-- Witness for the amended C8 at `badMagicFile`. -/
theorem vff_open_validation_witness :
    ((badMagicFile.take 4 ≠ vffMagic ∨ readU32BE badMagicFile 8 ≠ badMagicFile.length ∨
        readU16BE badMagicFile 12 ≠ sizeofHeader) ↔
      ∃ r, vff_init badMagicFile = Except.error (VffError.invalidContainer r)) ∧
    ((badMagicFile.take 4 = vffMagic ∧ readU32BE badMagicFile 8 = badMagicFile.length ∧
        readU16BE badMagicFile 12 = sizeofHeader) →
      (∃ v, vff_init badMagicFile = Except.ok v) ∨
        vff_init badMagicFile = Except.error VffError.unsupportedFat ∨
        vff_init badMagicFile = Except.error VffError.bufferError) :=
  vff_open_validation badMagicFile (by decide)

/-- Forward characterisation of a `vff_init` run that passes all three
checks but fails parsing the root directory region. -/
lemma vff_init_rootError_intro (file : List Nat) (cc : Nat) (e : VffError)
    (fat1 fat2 : FAT) (p1 p2 : Nat)
    (hcc : file.length / 0x200 = cc)
    (hlen32 : ¬file.length < sizeofHeader)
    (hmagic : ¬file.take 4 ≠ vffMagic)
    (hsize : ¬readU32BE file 8 ≠ file.length)
    (hhdr : ¬readU16BE file 12 ≠ sizeofHeader)
    (hfat1 : fat_init file sizeofHeader cc = Except.ok (fat1, p1))
    (hfat2 : fat_init file p1 cc = Except.ok (fat2, p2))
    (hroot : parseDirectory (fileRead file p2 0x1000) = Except.error e) :
    vff_init file = Except.error e := by
  simp only [vff_init, hcc]
  rw [if_neg hlen32, if_neg hmagic, if_neg hsize, if_neg hhdr, hfat1]
  simp only
  rw [hfat2]
  simp only
  rw [hroot]

/-- A 1057-byte file with a fully valid header (magic, declared size
0x421 = 1057, header size 32): cluster count 2, both 512-byte FAT copies
read, and a 1-byte root-directory region left over. -/
def file1057 : List Nat :=
  [0x56, 0x46, 0x46, 0x20, 0, 0, 0, 0, 0x00, 0x00, 0x04, 0x21, 0x00, 0x20] ++
    List.replicate 1043 0

/-- The third outcome of the amended C8 is reachable: `file1057` passes
all three header checks, yet construction fails with the buffer-size
error because its truncated 1-byte root region is not a whole number of
32-byte records (`FileEntry.from_buffer_copy` raises `ValueError`). -/
theorem vff_init_truncated_root :
    file1057.take 4 = vffMagic ∧ readU32BE file1057 8 = file1057.length ∧
    readU16BE file1057 12 = sizeofHeader ∧
    vff_init file1057 = Except.error VffError.bufferError := by
  have hlen : file1057.length = 1057 := by
    rw [file1057, List.length_append, List.length_replicate]
    rfl
  have hmagic : file1057.take 4 = vffMagic := by decide
  have hsize : readU32BE file1057 8 = 1057 := by decide
  have hhdr : readU16BE file1057 12 = 32 := by decide
  have hfs : fatsize 2 12 = 512 := by norm_num [fatsize]
  have hfat1 : fat_init file1057 sizeofHeader 2 =
      Except.ok (⟨FatType.fat12, fatParse FatType.fat12 (fileRead file1057 32 512)⟩, 544) := by
    simp only [fat_init, sizeofHeader]
    rw [if_pos (by norm_num : (2 : Nat) < 4085), hfs, hlen]
    norm_num
  have hfat2 : fat_init file1057 544 2 =
      Except.ok (⟨FatType.fat12, fatParse FatType.fat12 (fileRead file1057 544 512)⟩, 1056) := by
    simp only [fat_init]
    rw [if_pos (by norm_num : (2 : Nat) < 4085), hfs, hlen]
    norm_num
  have h14 : (1056 : Nat) =
      ([0x56, 0x46, 0x46, 0x20, 0, 0, 0, 0, 0x00, 0x00, 0x04, 0x21, 0x00, 0x20] :
        List Nat).length + 1042 := by decide
  have hrootdata : fileRead file1057 1056 0x1000 = List.replicate 1 0 := by
    rw [fileRead, file1057, h14, List.drop_append, List.drop_replicate, List.take_replicate]
    congr 1
  have hroot : parseDirectory (fileRead file1057 1056 0x1000) =
      Except.error VffError.bufferError := by
    rw [hrootdata]
    decide
  refine ⟨hmagic, by rw [hsize, hlen], by rw [hhdr]; rfl, ?_⟩
  exact vff_init_rootError_intro file1057 2 VffError.bufferError
    ⟨FatType.fat12, fatParse FatType.fat12 (fileRead file1057 32 512)⟩
    ⟨FatType.fat12, fatParse FatType.fat12 (fileRead file1057 544 512)⟩
    544 1056 (by rw [hlen]) (by rw [hlen]; decide) (by rw [hmagic]; simp)
    (by rw [hsize, hlen]; simp) (by rw [hhdr]; simp [sizeofHeader]) hfat1 hfat2 hroot

/-- A container for lookup witnesses: data offset 0 over a 4-byte file,
FAT `goodFat` (chain 2 → 3 → End). -/
def lookupVff : VFF where
  file := [7, 8, 9, 10]
  fileSize := 4
  headerSize := 32
  clustercount := 4
  fat1 := goodFat
  fat2 := goodFat
  root := []
  offset := 0

/-- A plain-file entry named `AB` (no extension), archive attribute,
start cluster 2, size 3. -/
def entryAB : FileEntry where
  name := [0x41, 0x42]
  fileExtension := []
  attributes := 0x20
  reserved := 0
  creationTimeMilliseconds := 0
  creationTime := 0
  creationDate := 0
  accessDate := 0
  extendedAttributes := 0
  lastModifiedTime := 0
  lastModifiedDate := 0
  offset := 2
  size := 3

/-- C6: directory lookup matches by case-insensitive comparison of the
assembled full name - two queries with equal lower-casings give identical
results - and resolves the first matching entry to a directory table
reparsed (through `Directory.__init__`, whose `ValueError` on chain bytes
that are not whole 32-byte records propagates) from its chain bytes when
the DIRECTORY bit is set, the empty value when its size is zero, and
otherwise its chain bytes truncated to the declared size. -/
theorem dir_getitem_lookup (v : VFF) (entries : List FileEntry) (d d2 : List Nat)
    (e : FileEntry) (fuel : Nat)
    (hcase : lowerB d2 = lowerB d)
    (hfind : entries.find? (fun e => lowerB e.get_full_name == lowerB d) = some e) :
    dir_getitem v entries d2 fuel = dir_getitem v entries d fuel ∧
    dir_getitem v entries d fuel =
      (if e.attributes &&& DIRECTORY ≠ 0 then
        mbind (v.read_chain e.offset fuel) fun bs =>
          match parseDirectory bs with
          | Except.error err => some (Except.error err)
          | Except.ok sub => some (Except.ok (some (Resolved.subdir sub)))
      else if e.size = 0 then some (Except.ok (some Resolved.emptyStr))
      else
        mbind (v.read_chain e.offset fuel) fun bs =>
          some (Except.ok (some (Resolved.content (bs.take e.size))))) := by
  induction entries with
  | nil => exact absurd hfind (by simp)
  | cons a es ih =>
    by_cases hm : lowerB a.get_full_name = lowerB d
    · rw [List.find?_cons_of_pos _ (by simp [hm])] at hfind
      injection hfind with he
      subst he
      rw [dir_getitem, dir_getitem, if_pos hm,
        if_pos (show lowerB a.get_full_name = lowerB d2 by rw [hcase]; exact hm)]
      exact ⟨rfl, rfl⟩
    · rw [List.find?_cons_of_neg _ (by simp [hm])] at hfind
      have := ih hfind
      rw [dir_getitem, dir_getitem, if_neg hm,
        if_neg (show ¬lowerB a.get_full_name = lowerB d2 by rw [hcase]; exact hm)]
      exact this

/-- Witness for C6: queries `AB` and `ab` on a one-entry directory both
resolve to the entry's chain bytes truncated to its size. -/
theorem dir_getitem_lookup_witness :
    dir_getitem lookupVff [entryAB] [0x41, 0x42] 10 =
      dir_getitem lookupVff [entryAB] [0x61, 0x62] 10 ∧
    dir_getitem lookupVff [entryAB] [0x61, 0x62] 10 =
      (if entryAB.attributes &&& DIRECTORY ≠ 0 then
        mbind (lookupVff.read_chain entryAB.offset 10) fun bs =>
          match parseDirectory bs with
          | Except.error err => some (Except.error err)
          | Except.ok sub => some (Except.ok (some (Resolved.subdir sub)))
      else if entryAB.size = 0 then some (Except.ok (some Resolved.emptyStr))
      else
        mbind (lookupVff.read_chain entryAB.offset 10) fun bs =>
          some (Except.ok (some (Resolved.content (bs.take entryAB.size))))) :=
  dir_getitem_lookup lookupVff [entryAB] [0x61, 0x62] [0x41, 0x42] entryAB 10
    (by decide) (by decide)

/-- C10: a lookup whose query matches no entry's assembled full name
(case-insensitively) falls off the end of the loop and returns the absent
value (Python `None`) - not an error. -/
theorem dir_getitem_no_match (v : VFF) (entries : List FileEntry) (d : List Nat)
    (fuel : Nat) (h : ∀ e ∈ entries, lowerB e.get_full_name ≠ lowerB d) :
    dir_getitem v entries d fuel = some (Except.ok none) := by
  induction entries with
  | nil => rfl
  | cons a es ih =>
    rw [dir_getitem, if_neg (h a (by simp))]
    exact ih (fun e he => h e (by simp [he]))

/-- Witness for C10: a query matching nothing returns `None`. -/
theorem dir_getitem_no_match_witness :
    dir_getitem lookupVff [entryAB] [0x7A, 0x7A] 5 = some (Except.ok none) :=
  dir_getitem_no_match lookupVff [entryAB] [0x7A, 0x7A] 5 (by decide)

/-- Byte span `(start, stop)` of the second FAT copy inside a container
file: the first copy is read at byte 32 and each copy spans `fatsize`
bytes, with the entry width chosen from the cluster count as in
`fat_init`. -/
def fat2Span (file : List Nat) : Nat × Nat :=
  let cc := file.length / 0x200
  let fs := if cc < 4085 then fatsize cc 12 else fatsize cc 16
  (32 + fs, 32 + 2 * fs)

/-- The container `VFF.__init__` builds once its checks have passed, given
the FAT type and per-copy FAT byte size it selected and the successfully
parsed root directory. -/
def vffOf (f : List Nat) (ft : FatType) (fs : Nat) (root : List FileEntry) : VFF where
  file := f
  fileSize := readU32BE f 8
  headerSize := readU16BE f 12
  clustercount := f.length / 0x200
  fat1 := ⟨ft, fatParse ft (fileRead f sizeofHeader fs)⟩
  fat2 := ⟨ft, fatParse ft (fileRead f (min (sizeofHeader + fs) f.length) fs)⟩
  root := root
  offset := min (min (min (sizeofHeader + fs) f.length + fs) f.length + 0x1000) f.length

lemma vff_init_inv {f : List Nat} {v : VFF} (h : vff_init f = Except.ok v) :
    ∃ ft fs root,
      ((ft = FatType.fat12 ∧ f.length / 0x200 < 4085 ∧ fs = fatsize (f.length / 0x200) 12) ∨
        (ft = FatType.fat16 ∧ ¬f.length / 0x200 < 4085 ∧ f.length / 0x200 < 65525 ∧
          fs = fatsize (f.length / 0x200) 16)) ∧
      parseDirectory (fileRead f (min (min (sizeofHeader + fs) f.length + fs) f.length)
        0x1000) = Except.ok root ∧
      v = vffOf f ft fs root := by
  rw [vff_init] at h
  split at h
  · exact absurd h (by simp)
  split at h
  · exact absurd h (by simp)
  split at h
  · exact absurd h (by simp)
  split at h
  · exact absurd h (by simp)
  simp only [fat_init] at h
  by_cases hc12 : f.length / 0x200 < 4085
  · rw [if_pos hc12] at h
    simp only at h
    rw [if_pos hc12] at h
    simp only at h
    rcases hpd : parseDirectory (fileRead f
        (min (min (sizeofHeader + fatsize (f.length / 0x200) 12) f.length +
          fatsize (f.length / 0x200) 12) f.length) 0x1000) with err | root
    · rw [hpd] at h
      exact absurd h (by simp)
    · rw [hpd] at h
      simp only at h
      refine ⟨FatType.fat12, fatsize (f.length / 0x200) 12, root,
        Or.inl ⟨rfl, hc12, rfl⟩, hpd, ?_⟩
      injection h with hv
      exact hv.symm
  · rw [if_neg hc12] at h
    by_cases hc16 : f.length / 0x200 < 65525
    · rw [if_pos hc16] at h
      simp only at h
      rw [if_neg hc12, if_pos hc16] at h
      simp only at h
      rcases hpd : parseDirectory (fileRead f
          (min (min (sizeofHeader + fatsize (f.length / 0x200) 16) f.length +
            fatsize (f.length / 0x200) 16) f.length) 0x1000) with err | root
      · rw [hpd] at h
        exact absurd h (by simp)
      · rw [hpd] at h
        simp only at h
        refine ⟨FatType.fat16, fatsize (f.length / 0x200) 16, root,
          Or.inr ⟨rfl, hc12, hc16, rfl⟩, hpd, ?_⟩
        injection h with hv
        exact hv.symm
    · rw [if_neg hc16] at h
      exact absurd h (by simp)

lemma fileRead_congr {f1 f2 : List Nat} (hlen : f1.length = f2.length)
    (a b : Nat) (h : ∀ i, a ≤ i → i < a + b → f1.getD i 0 = f2.getD i 0) :
    fileRead f1 a b = fileRead f2 a b := by
  apply List.ext_getElem?
  intro i
  simp only [fileRead, List.getElem?_take, List.getElem?_drop]
  by_cases hib : i < b
  · rw [if_pos hib, if_pos hib]
    by_cases hlt : a + i < f1.length
    · have hi := h (a + i) (by omega) (by omega)
      rw [List.getD_eq_getElem?_getD, List.getD_eq_getElem?_getD] at hi
      rw [List.getElem?_eq_getElem hlt,
        List.getElem?_eq_getElem (by omega : a + i < f2.length)] at hi ⊢
      simp only [Option.getD_some] at hi
      rw [hi]
    · rw [List.getElem?_eq_none (by omega), List.getElem?_eq_none (by omega)]
  · rw [if_neg hib, if_neg hib]

lemma read_cluster_congr {v1 v2 : VFF} (hoff : v1.offset = v2.offset)
    (hlen : v1.file.length = v2.file.length)
    (hagree : ∀ i, v1.offset ≤ i + 0x200 → v1.file.getD i 0 = v2.file.getD i 0)
    (num : Nat) (hnum : 1 ≤ num) :
    v1.read_cluster num = v2.read_cluster num := by
  simp only [VFF.read_cluster, hoff]
  by_cases hneg : (v2.offset : Int) + 0x200 * ((num : Int) - 2) < 0
  · rw [if_pos hneg, if_pos hneg]
  · rw [if_neg hneg, if_neg hneg]
    congr 1
    apply fileRead_congr hlen
    intro i hi _
    exact hagree i (by omega)

lemma get_chain_go_ok_used (t : FAT) : ∀ fuel c acc l,
    get_chain_go t fuel c acc = some (Except.ok l) →
    (∀ x ∈ acc, t.is_used x = true) → ∀ x ∈ l, t.is_used x = true := by
  intro fuel
  induction fuel with
  | zero => intro c acc l hr; exact absurd hr (by simp [get_chain_go])
  | succ n ih =>
    intro c acc l hr hacc
    rw [get_chain_go] at hr
    by_cases hu : t.is_used c = true
    · rw [hu] at hr
      simp only [if_true] at hr
      rcases hg : t.getItem c with _ | nxt
      · rw [hg] at hr
        exact absurd hr (by simp)
      · rw [hg] at hr
        refine ih nxt (acc ++ [c]) l hr ?_
        intro x hx
        rcases List.mem_append.mp hx with hx | hx
        · exact hacc x hx
        · rw [List.mem_singleton.mp hx]
          exact hu
    · rw [Bool.not_eq_true] at hu
      rw [hu] at hr
      simp only [Bool.false_eq_true, if_false] at hr
      by_cases hl : t.is_last c = true
      · rw [hl] at hr
        simp only [if_true, Option.some.injEq] at hr
        injection hr with hal
        subst hal
        exact hacc
      · rw [Bool.not_eq_true] at hl
        rw [hl] at hr
        exact absurd hr (by simp)

lemma readClusters_congr {v1 v2 : VFF}
    (hrc : ∀ num, 1 ≤ num → v1.read_cluster num = v2.read_cluster num) :
    ∀ l, (∀ c ∈ l, 1 ≤ c) → readClusters v1 l = readClusters v2 l := by
  intro l
  induction l with
  | nil => intro _; rfl
  | cons c cs ih =>
    intro hmem
    simp only [readClusters]
    rw [hrc c (hmem c (by simp)), ih (fun x hx => hmem x (by simp [hx]))]

lemma read_chain_congr {v1 v2 : VFF} (hfat : v1.fat1 = v2.fat1)
    (hrc : ∀ num, 1 ≤ num → v1.read_cluster num = v2.read_cluster num) :
    ∀ start fuel, v1.read_chain start fuel = v2.read_chain start fuel := by
  intro start fuel
  simp only [VFF.read_chain, hfat]
  rcases hg : v2.fat1.get_chain start fuel with _ | r
  · rfl
  · rcases r with e | l
    · rfl
    · simp only [mbind]
      have hused : ∀ x ∈ l, v2.fat1.is_used x = true :=
        get_chain_go_ok_used v2.fat1 fuel start [] l hg (by intro x hx; cases hx)
      have hone : ∀ c ∈ l, 1 ≤ c := by
        intro c hc
        have := hused c hc
        simp only [FAT.is_used, decide_eq_true_eq] at this
        omega
      rw [readClusters_congr hrc l hone]

lemma dir_getitem_congr {v1 v2 : VFF}
    (hrcn : ∀ s fuel, v1.read_chain s fuel = v2.read_chain s fuel) :
    ∀ entries d fuel, dir_getitem v1 entries d fuel = dir_getitem v2 entries d fuel := by
  intro entries
  induction entries with
  | nil => intro d fuel; rfl
  | cons a es ih =>
    intro d fuel
    simp only [dir_getitem, hrcn, ih]

lemma ls_go_congr {v1 v2 : VFF}
    (hdg : ∀ all d fuel, dir_getitem v1 all d fuel = dir_getitem v2 all d fuel) :
    ∀ fuel all rem pre, ls_go v1 fuel all rem pre = ls_go v2 fuel all rem pre := by
  intro fuel
  induction fuel with
  | zero => intro all rem pre; rfl
  | succ n ih =>
    intro all rem pre
    cases rem with
    | nil => rfl
    | cons e es => simp only [ls_go, hdg, ih]

lemma dump_go_congr {v1 v2 : VFF}
    (hdg : ∀ all d fuel, dir_getitem v1 all d fuel = dir_getitem v2 all d fuel) :
    ∀ fuel all rem path, dump_go v1 fuel all rem path = dump_go v2 fuel all rem path := by
  intro fuel
  induction fuel with
  | zero => intro all rem path; rfl
  | succ n ih =>
    intro all rem path
    cases rem with
    | nil => rfl
    | cons e es => simp only [dump_go, hdg, ih]

lemma vffOf_congr (f1 f2 : List Nat) (ft : FatType) (fs : Nat)
    (root1 root2 : List FileEntry)
    (hlen : f1.length = f2.length)
    (hagree : ∀ i, i < 32 + fs ∨ 32 + 2 * fs ≤ i → f1.getD i 0 = f2.getD i 0)
    (hroom : 32 + 2 * fs + 0x200 ≤ f1.length)
    (hpd1 : parseDirectory (fileRead f1 (min (min (sizeofHeader + fs) f1.length + fs)
      f1.length) 0x1000) = Except.ok root1)
    (hpd2 : parseDirectory (fileRead f2 (min (min (sizeofHeader + fs) f2.length + fs)
      f2.length) 0x1000) = Except.ok root2) :
    ((vffOf f1 ft fs root1).clustercount = (vffOf f2 ft fs root2).clustercount ∧
      (vffOf f1 ft fs root1).fat1 = (vffOf f2 ft fs root2).fat1 ∧
      (vffOf f1 ft fs root1).offset = (vffOf f2 ft fs root2).offset ∧
      (vffOf f1 ft fs root1).root = (vffOf f2 ft fs root2).root) ∧
    (∀ start fuel, (vffOf f1 ft fs root1).read_chain start fuel =
      (vffOf f2 ft fs root2).read_chain start fuel) ∧
    (∀ entries d fuel, dir_getitem (vffOf f1 ft fs root1) entries d fuel =
      dir_getitem (vffOf f2 ft fs root2) entries d fuel) ∧
    (∀ fuel all rem pre, ls_go (vffOf f1 ft fs root1) fuel all rem pre =
      ls_go (vffOf f2 ft fs root2) fuel all rem pre) ∧
    (∀ fuel all rem path, dump_go (vffOf f1 ft fs root1) fuel all rem path =
      dump_go (vffOf f2 ft fs root2) fuel all rem path) := by
  have hroom2 : 32 + 2 * fs + 0x200 ≤ f2.length := hlen ▸ hroom
  have hp2 : min (min (sizeofHeader + fs) f1.length + fs) f1.length = 32 + 2 * fs := by
    simp only [sizeofHeader]
    omega
  have hp2' : min (min (sizeofHeader + fs) f2.length + fs) f2.length = 32 + 2 * fs := by
    simp only [sizeofHeader]
    omega
  have hcc : (vffOf f1 ft fs root1).clustercount = (vffOf f2 ft fs root2).clustercount := by
    simp only [vffOf, hlen]
  have hfat : (vffOf f1 ft fs root1).fat1 = (vffOf f2 ft fs root2).fat1 := by
    simp only [vffOf]
    congr 2
    refine fileRead_congr hlen sizeofHeader fs (fun i hi hib => hagree i (Or.inl ?_))
    simp only [sizeofHeader] at hib
    omega
  have hoff : (vffOf f1 ft fs root1).offset = (vffOf f2 ft fs root2).offset := by
    simp only [vffOf]
    rw [hp2, hp2', hlen]
  have hroot : (vffOf f1 ft fs root1).root = (vffOf f2 ft fs root2).root := by
    rw [hp2] at hpd1
    rw [hp2'] at hpd2
    rw [fileRead_congr hlen (32 + 2 * fs) 0x1000
      (fun i hi _ => hagree i (Or.inr hi))] at hpd1
    exact Except.ok.inj (hpd1.symm.trans hpd2)
  have hoffge : 32 + 2 * fs + 0x200 ≤ (vffOf f1 ft fs root1).offset := by
    show 32 + 2 * fs + 0x200 ≤ min (min (min (sizeofHeader + fs) f1.length + fs)
      f1.length + 0x1000) f1.length
    rw [hp2]
    omega
  have hrc : ∀ num, 1 ≤ num → (vffOf f1 ft fs root1).read_cluster num =
      (vffOf f2 ft fs root2).read_cluster num := by
    intro num hnum
    refine read_cluster_congr hoff hlen (fun i hi => hagree i (Or.inr (by omega))) num hnum
  have hch := read_chain_congr hfat hrc
  have hdg := dir_getitem_congr hch
  exact ⟨⟨hcc, hfat, hoff, hroot⟩, hch, hdg, ls_go_congr hdg, dump_go_congr hdg⟩

/-- C9 (amended): two successfully opened containers whose files have equal
length and agree on every byte outside the second FAT copy's span behave
identically under `read_chain`, directory lookup, listing and extraction -
provided the file is long enough (`fileSize ≥ 32 + 2·fatSize + 512`) that
the byte ranges cluster reads resolve to (offset `dataOffset + 512·(num−2)`
for chain clusters `num ≥ 1`) lie at or beyond the end of the second copy.
In shorter, truncated containers a chain containing cluster 1 reads bytes
of the second FAT copy itself (see the counterexample). -/
theorem second_fat_copy_unused (f1 f2 : List Nat) (v1 v2 : VFF)
    (h1 : vff_init f1 = Except.ok v1) (h2 : vff_init f2 = Except.ok v2)
    (hlen : f1.length = f2.length)
    (hagree : ∀ i, i < (fat2Span f1).1 ∨ (fat2Span f1).2 ≤ i → f1.getD i 0 = f2.getD i 0)
    (hroom : (fat2Span f1).2 + 0x200 ≤ f1.length) :
    (v1.clustercount = v2.clustercount ∧ v1.fat1 = v2.fat1 ∧ v1.offset = v2.offset ∧
      v1.root = v2.root) ∧
    (∀ start fuel, v1.read_chain start fuel = v2.read_chain start fuel) ∧
    (∀ entries d fuel, dir_getitem v1 entries d fuel = dir_getitem v2 entries d fuel) ∧
    (∀ fuel all rem pre, ls_go v1 fuel all rem pre = ls_go v2 fuel all rem pre) ∧
    (∀ fuel all rem path, dump_go v1 fuel all rem path = dump_go v2 fuel all rem path) := by
  obtain ⟨ft1, fs1, root1, hcase1, hpd1, hv1⟩ := vff_init_inv h1
  obtain ⟨ft2, fs2, root2, hcase2, hpd2, hv2⟩ := vff_init_inv h2
  subst hv1
  subst hv2
  rcases hcase1 with ⟨hft1, hlt1, hfs1⟩ | ⟨hft1, hge1, hlt1, hfs1⟩
  · rcases hcase2 with ⟨hft2, hlt2, hfs2⟩ | ⟨hft2, hge2, hlt2, hfs2⟩
    · subst hft1
      subst hft2
      subst hfs1
      subst hfs2
      have hspan1 : (fat2Span f1).1 = 32 + fatsize (f1.length / 0x200) 12 := by
        simp only [fat2Span]
        rw [if_pos hlt1]
      have hspan2 : (fat2Span f1).2 = 32 + 2 * fatsize (f1.length / 0x200) 12 := by
        simp only [fat2Span]
        rw [if_pos hlt1]
      rw [hspan1, hspan2] at hagree
      rw [hspan2] at hroom
      have hfseq : fatsize (f2.length / 0x200) 12 = fatsize (f1.length / 0x200) 12 := by
        rw [hlen]
      rw [hfseq]
      rw [hfseq] at hpd2
      exact vffOf_congr f1 f2 FatType.fat12 (fatsize (f1.length / 0x200) 12) root1 root2
        hlen hagree hroom hpd1 hpd2
    · rw [← hlen] at hge2
      exact absurd hlt1 hge2
  · rcases hcase2 with ⟨hft2, hlt2, hfs2⟩ | ⟨hft2, hge2, hlt2, hfs2⟩
    · rw [← hlen] at hlt2
      exact absurd hlt2 hge1
    · subst hft1
      subst hft2
      subst hfs1
      subst hfs2
      have hspan1 : (fat2Span f1).1 = 32 + fatsize (f1.length / 0x200) 16 := by
        simp only [fat2Span]
        rw [if_neg hge1]
      have hspan2 : (fat2Span f1).2 = 32 + 2 * fatsize (f1.length / 0x200) 16 := by
        simp only [fat2Span]
        rw [if_neg hge1]
      rw [hspan1, hspan2] at hagree
      rw [hspan2] at hroom
      have hfseq : fatsize (f2.length / 0x200) 16 = fatsize (f1.length / 0x200) 16 := by
        rw [hlen]
      rw [hfseq]
      rw [hfseq] at hpd2
      exact vffOf_congr f1 f2 FatType.fat16 (fatsize (f1.length / 0x200) 16) root1 root2
        hlen hagree hroom hpd1 hpd2

/-- A valid 800-byte container image (cluster count 1) whose FAT entry 1
is an `End` marker (bytes 0x80, 0xFF at offsets 33-34), so the chain from
cluster 1 is just `[1]`; every other byte is zero. -/
def fileA : List Nat :=
  [0x56, 0x46, 0x46, 0x20, 0, 0, 0, 0, 0x00, 0x00, 0x03, 0x20, 0x00, 0x20] ++
    List.replicate 18 0 ++ [0, 0x80, 0xFF] ++ List.replicate 765 0

/-- `fileA` with one byte changed, at offset 600 - inside the second FAT
copy's span [544, 1056). -/
def fileB : List Nat :=
  [0x56, 0x46, 0x46, 0x20, 0, 0, 0, 0, 0x00, 0x00, 0x03, 0x20, 0x00, 0x20] ++
    List.replicate 18 0 ++ [0, 0x80, 0xFF] ++ List.replicate 565 0 ++ [1] ++
    List.replicate 199 0

/-- C9 counterexample: `fileA` and `fileB` are valid containers, identical
except for one byte inside the second FAT copy's span, yet `read_chain 1`
returns different bytes: the file is truncated (800 bytes, stream
position 800 after the short reads), so the 512-byte read for cluster 1
starts at byte 288 and covers the second FAT copy's bytes [544, 800). -/
theorem second_fat_copy_cex :
    fileA.length = fileB.length ∧
    fileA.take 544 = fileB.take 544 ∧
    fileA.drop 1056 = fileB.drop 1056 ∧
    fat2Span fileA = (544, 1056) ∧
    (vff_init fileA).toOption.map (fun v => v.read_chain 1 10) ≠
      (vff_init fileB).toOption.map (fun v => v.read_chain 1 10) := by decide

/-- A valid 1600-byte all-zero container image: cluster count 3, FAT12,
one FAT copy spanning [32, 544), the second spanning [544, 1056). -/
def file1600 : List Nat :=
  [0x56, 0x46, 0x46, 0x20, 0, 0, 0, 0, 0x00, 0x00, 0x06, 0x40, 0x00, 0x20] ++
    List.replicate 1586 0

/-- The container `vff_init` builds from `file1600`: its 544-byte root
region holds 17 all-zero records, parsing as an empty directory. -/
def vff1600 : VFF where
  file := file1600
  fileSize := 1600
  headerSize := 32
  clustercount := 3
  fat1 := ⟨FatType.fat12, fileRead file1600 32 512⟩
  fat2 := ⟨FatType.fat12, fileRead file1600 544 512⟩
  root := []
  offset := 1600

lemma file1600_length : file1600.length = 1600 := by
  rw [file1600, List.length_append, List.length_replicate]
  rfl

lemma vff_init_1600 : vff_init file1600 = Except.ok vff1600 := by
  have hlen := file1600_length
  have hmagic : file1600.take 4 = vffMagic := by decide
  have hsize : readU32BE file1600 8 = 1600 := by decide
  have hhdr : readU16BE file1600 12 = 32 := by decide
  have hfs : fatsize 3 12 = 512 := by norm_num [fatsize]
  have hfat1 : fat_init file1600 sizeofHeader 3 =
      Except.ok (⟨FatType.fat12, fatParse FatType.fat12 (fileRead file1600 32 512)⟩, 544) := by
    simp only [fat_init, sizeofHeader]
    rw [if_pos (by norm_num : (3 : Nat) < 4085), hfs, hlen]
    norm_num
  have hfat2 : fat_init file1600 544 3 =
      Except.ok (⟨FatType.fat12, fatParse FatType.fat12 (fileRead file1600 544 512)⟩, 1056) := by
    simp only [fat_init]
    rw [if_pos (by norm_num : (3 : Nat) < 4085), hfs, hlen]
    norm_num
  have h14 : (1056 : Nat) =
      ([0x56, 0x46, 0x46, 0x20, 0, 0, 0, 0, 0x00, 0x00, 0x06, 0x40, 0x00, 0x20] :
        List Nat).length + 1042 := by decide
  have hrootdata : fileRead file1600 1056 0x1000 = List.replicate 544 0 := by
    rw [fileRead, file1600, h14, List.drop_append, List.drop_replicate, List.take_replicate]
    congr 1
  have hroot : parseDirectory (fileRead file1600 1056 0x1000) = Except.ok [] := by
    rw [hrootdata, (by norm_num : (544 : Nat) = 32 * 17)]
    exact parseDirectory_zeros 17
  rw [vff_init_ok_intro file1600 3 []
    ⟨FatType.fat12, fatParse FatType.fat12 (fileRead file1600 32 512)⟩
    ⟨FatType.fat12, fatParse FatType.fat12 (fileRead file1600 544 512)⟩
    544 1056 (by rw [hlen]) (by rw [hlen]; decide) (by rw [hmagic]; simp)
    (by rw [hsize, hlen]; simp) (by rw [hhdr]; simp [sizeofHeader]) hfat1 hfat2 hroot]
  rw [hsize, hhdr, hlen]
  simp only [vff1600, fatParse]
  norm_num

lemma fat2Span_1600 : (fat2Span file1600).2 + 0x200 ≤ file1600.length := by
  simp only [fat2Span]
  rw [file1600_length]
  norm_num [fatsize]

/-- Witness for the amended C9 at `file1600` (taken twice: the two files
agree everywhere, in particular outside the second FAT copy's span). -/
theorem second_fat_copy_unused_witness :
    (vff1600.clustercount = vff1600.clustercount ∧ vff1600.fat1 = vff1600.fat1 ∧
      vff1600.offset = vff1600.offset ∧ vff1600.root = vff1600.root) ∧
    (∀ start fuel, vff1600.read_chain start fuel = vff1600.read_chain start fuel) ∧
    (∀ entries d fuel, dir_getitem vff1600 entries d fuel =
      dir_getitem vff1600 entries d fuel) ∧
    (∀ fuel all rem pre, ls_go vff1600 fuel all rem pre = ls_go vff1600 fuel all rem pre) ∧
    (∀ fuel all rem path, dump_go vff1600 fuel all rem path =
      dump_go vff1600 fuel all rem path) :=
  second_fat_copy_unused file1600 file1600 vff1600 vff1600 vff_init_1600 vff_init_1600
    rfl (fun _ _ => rfl) fat2Span_1600

end Wii
